import Mathlib

/-! Verification development for `include/iterator.hpp` (namespace `da`).

The header defines

* `normal_iterator<Iter, Container>`: a wrapper holding one cursor `m_iter`
  and forwarding every operation to it;
* the capability predicates `is_*_iterator` and the constraint aliases
  `require_*_iterator`, all evaluated by the compiler.

The run-time part is embedded as Lean functions over an explicit record of
the operations the wrapped cursor type supplies.  An operation whose
behaviour is undefined on the cursor is `none`.  A member function that
modifies `*this` returns the pair (value returned, `*this` afterwards).

The compile-time part is embedded as functions over descriptions of types:
a class is described by the member typedefs it declares, and a template that
does not resolve yields an explicit rejection value.
-/

namespace da

/-! ## The wrapped cursor -/

/-- The operations `normal_iterator` applies to its member `m_iter`, as
supplied by the cursor type `Iter`; `Ref` is `iterator_traits<Iter>::reference`
and offsets are `difference_type` values.  `none` stands for undefined
behaviour of the cursor operation. -/
structure CursorOps (Iter : Type) (Ref : Type) where
  /-- The expression `*it`. -/
  deref : Iter → Option Ref
  /-- The expression `++it`: the cursor afterwards. -/
  pre_inc : Iter → Option Iter
  /-- The expression `it++`: the value returned and the cursor afterwards. -/
  post_inc : Iter → Option (Iter × Iter)
  /-- The expression `--it`: the cursor afterwards. -/
  pre_dec : Iter → Option Iter
  /-- The expression `it--`: the value returned and the cursor afterwards. -/
  post_dec : Iter → Option (Iter × Iter)
  /-- The expression `it[n]`. -/
  index : Iter → Int → Option Ref
  /-- The expression `it += n`: the cursor afterwards. -/
  add_assign : Iter → Int → Option Iter
  /-- The expression `it + n`. -/
  plus : Iter → Int → Option Iter
  /-- The expression `it -= n`: the cursor afterwards. -/
  sub_assign : Iter → Int → Option Iter
  /-- The expression `it - n`. -/
  minus : Iter → Int → Option Iter

/-- The six comparisons between a cursor of type `Iter1` and one of type
`Iter2`, as supplied by the cursor types. -/
structure Comparable (Iter1 : Type) (Iter2 : Type) where
  /-- The expression `x == y`. -/
  eq : Iter1 → Iter2 → Bool
  /-- The expression `x != y`. -/
  ne : Iter1 → Iter2 → Bool
  /-- The expression `x < y`. -/
  lt : Iter1 → Iter2 → Bool
  /-- The expression `x > y`. -/
  gt : Iter1 → Iter2 → Bool
  /-- The expression `x <= y`. -/
  le : Iter1 → Iter2 → Bool
  /-- The expression `x >= y`. -/
  ge : Iter1 → Iter2 → Bool

/-! ## `normal_iterator`, run-time part -/

/-- The class `normal_iterator<Iter, Container>`: its only data member is
`m_iter`; `Container` takes part in the type only. -/
structure normal_iterator (Iter : Type) (Container : Type) where
  /-- The wrapped cursor. -/
  m_iter : Iter

namespace normal_iterator

variable {Iter Iter1 Iter2 Ref Container : Type}

/-- The default constructor: `m_iter(Iter())`. -/
def ctor_default [Inhabited Iter] : normal_iterator Iter Container :=
  ⟨default⟩

/-- The constructor `normal_iterator(const Iter& i)`: `m_iter(i)`. -/
def ctor_cursor (i : Iter) : normal_iterator Iter Container :=
  ⟨i⟩

/-- The member `base()`: returns `m_iter`. -/
def base (a : normal_iterator Iter Container) : Iter :=
  a.m_iter

/-- The body of the converting constructor `normal_iterator(const It& i)`:
`m_iter(i.base())`, where `convert` is the conversion from the cursor type
of `i` to `Iter` that initialises `m_iter`. -/
def ctor_convert (convert : Iter1 → Iter2) (i : normal_iterator Iter1 Container) :
    normal_iterator Iter2 Container :=
  ⟨convert i.base⟩

/-- The member `operator*()`: `return *m_iter`. -/
def operator_deref (K : CursorOps Iter Ref) (a : normal_iterator Iter Container) : Option Ref :=
  K.deref a.m_iter

/-- The member `operator++()`: `return (++m_iter, *this)`. -/
def operator_pre_inc (K : CursorOps Iter Ref) (a : normal_iterator Iter Container) :
    Option (normal_iterator Iter Container × normal_iterator Iter Container) :=
  (K.pre_inc a.m_iter).map fun c => (⟨c⟩, ⟨c⟩)

/-- The member `operator++(int)`: `return Self(m_iter++)`. -/
def operator_post_inc (K : CursorOps Iter Ref) (a : normal_iterator Iter Container) :
    Option (normal_iterator Iter Container × normal_iterator Iter Container) :=
  (K.post_inc a.m_iter).map fun r => (ctor_cursor r.1, ⟨r.2⟩)

/-- The member `operator--()`: `return (--m_iter, *this)`. -/
def operator_pre_dec (K : CursorOps Iter Ref) (a : normal_iterator Iter Container) :
    Option (normal_iterator Iter Container × normal_iterator Iter Container) :=
  (K.pre_dec a.m_iter).map fun c => (⟨c⟩, ⟨c⟩)

/-- The member `operator--(int)`: `return Self(m_iter--)`. -/
def operator_post_dec (K : CursorOps Iter Ref) (a : normal_iterator Iter Container) :
    Option (normal_iterator Iter Container × normal_iterator Iter Container) :=
  (K.post_dec a.m_iter).map fun r => (ctor_cursor r.1, ⟨r.2⟩)

/-- The member `operator[](n) const`: `return m_iter[n]`. -/
def operator_index (K : CursorOps Iter Ref) (a : normal_iterator Iter Container) (n : Int) :
    Option Ref :=
  K.index a.m_iter n

/-- The member `operator+=(n)`: `return (m_iter += n, *this)`. -/
def operator_add_assign (K : CursorOps Iter Ref) (a : normal_iterator Iter Container) (n : Int) :
    Option (normal_iterator Iter Container × normal_iterator Iter Container) :=
  (K.add_assign a.m_iter n).map fun c => (⟨c⟩, ⟨c⟩)

/-- The member `operator+(n) const`: `return Self(m_iter + n)`. -/
def operator_plus (K : CursorOps Iter Ref) (a : normal_iterator Iter Container) (n : Int) :
    Option (normal_iterator Iter Container) :=
  (K.plus a.m_iter n).map ctor_cursor

/-- The member `operator-=(n)`: `return (m_iter -= n, *this)`. -/
def operator_sub_assign (K : CursorOps Iter Ref) (a : normal_iterator Iter Container) (n : Int) :
    Option (normal_iterator Iter Container × normal_iterator Iter Container) :=
  (K.sub_assign a.m_iter n).map fun c => (⟨c⟩, ⟨c⟩)

/-- The member `operator-(n) const`: `return Self(m_iter - n)`. -/
def operator_minus (K : CursorOps Iter Ref) (a : normal_iterator Iter Container) (n : Int) :
    Option (normal_iterator Iter Container) :=
  (K.minus a.m_iter n).map ctor_cursor

end normal_iterator

/-! ## The comparison operators -/

section comparisons

variable {Iter Iter1 Iter2 Container : Type}

/-- The same-type `operator==`: `x.base() == y.base()`. -/
def operator_eq (K : Comparable Iter Iter) (x y : normal_iterator Iter Container) : Bool :=
  K.eq x.base y.base

/-- The cross-type `operator==`: `x.base() == y.base()`. -/
def operator_eq_cross (K : Comparable Iter1 Iter2) (x : normal_iterator Iter1 Container)
    (y : normal_iterator Iter2 Container) : Bool :=
  K.eq x.base y.base

/-- The same-type `operator!=`: `x.base() != y.base()`. -/
def operator_ne (K : Comparable Iter Iter) (x y : normal_iterator Iter Container) : Bool :=
  K.ne x.base y.base

/-- The cross-type `operator!=`: `x.base() != y.base()`. -/
def operator_ne_cross (K : Comparable Iter1 Iter2) (x : normal_iterator Iter1 Container)
    (y : normal_iterator Iter2 Container) : Bool :=
  K.ne x.base y.base

/-- The same-type `operator<`: `x.base() < y.base()`. -/
def operator_lt (K : Comparable Iter Iter) (x y : normal_iterator Iter Container) : Bool :=
  K.lt x.base y.base

/-- The cross-type `operator<`: `x.base() < y.base()`. -/
def operator_lt_cross (K : Comparable Iter1 Iter2) (x : normal_iterator Iter1 Container)
    (y : normal_iterator Iter2 Container) : Bool :=
  K.lt x.base y.base

/-- The same-type `operator>`: `x.base() > y.base()`. -/
def operator_gt (K : Comparable Iter Iter) (x y : normal_iterator Iter Container) : Bool :=
  K.gt x.base y.base

/-- The cross-type `operator>`: `x.base() > y.base()`. -/
def operator_gt_cross (K : Comparable Iter1 Iter2) (x : normal_iterator Iter1 Container)
    (y : normal_iterator Iter2 Container) : Bool :=
  K.gt x.base y.base

/-- The same-type `operator<=`: `x.base() <= y.base()`. -/
def operator_le (K : Comparable Iter Iter) (x y : normal_iterator Iter Container) : Bool :=
  K.le x.base y.base

/-- The cross-type `operator<=`: `x.base() <= y.base()`. -/
def operator_le_cross (K : Comparable Iter1 Iter2) (x : normal_iterator Iter1 Container)
    (y : normal_iterator Iter2 Container) : Bool :=
  K.le x.base y.base

/-- The same-type `operator>=`: `x.base() >= y.base()`. -/
def operator_ge (K : Comparable Iter Iter) (x y : normal_iterator Iter Container) : Bool :=
  K.ge x.base y.base

/-- The cross-type `operator>=`: `x.base() >= y.base()`. -/
def operator_ge_cross (K : Comparable Iter1 Iter2) (x : normal_iterator Iter1 Container)
    (y : normal_iterator Iter2 Container) : Bool :=
  K.ge x.base y.base

end comparisons

/-! ## Compile-time part: types, conversions, member typedefs -/

/-- The iterator category tags of the header `<iterator>`. -/
inductive iterator_tag
  | input_iterator_tag
  | output_iterator_tag
  | forward_iterator_tag
  | bidirectional_iterator_tag
  | random_access_iterator_tag
  deriving DecidableEq, Repr

/-- The direct base class each tag is declared with in `<iterator>`:
`forward_iterator_tag : input_iterator_tag`,
`bidirectional_iterator_tag : forward_iterator_tag`,
`random_access_iterator_tag : bidirectional_iterator_tag`; the input and
output tags have none. -/
def iterator_tag.base_class : iterator_tag → Option iterator_tag
  | .input_iterator_tag => none
  | .output_iterator_tag => none
  | .forward_iterator_tag => some .input_iterator_tag
  | .bidirectional_iterator_tag => some .forward_iterator_tag
  | .random_access_iterator_tag => some .bidirectional_iterator_tag

/-- Derived-to-base reachability: `a` is `b`, or `b` is reached from `a`
along at most `fuel` base-class links. -/
def iterator_tag.derives_from : Nat → iterator_tag → iterator_tag → Bool
  | 0, a, b => a == b
  | fuel + 1, a, b =>
    a == b ||
      match a.base_class with
      | some p => iterator_tag.derives_from fuel p b
      | none => false

/-- The longest chain of base-class links among the tags. -/
def iterator_tag.max_depth : Nat := 3

/-- The types the compile-time part speaks about. -/
inductive Ty
  /-- One of the iterator category tags. -/
  | tag (t : iterator_tag)
  /-- A type declared outside the header: a cursor type of some container,
  or one of its associated types. -/
  | named (name : String)
  /-- The specialisation `std::iterator_traits<Iter>`. -/
  | iterator_traits (Iter : String)
  /-- The specialisation `normal_iterator<Iter, Container>`. -/
  | normal_iterator (Iter : String) (Container : String)
  deriving DecidableEq, Repr

/-- The member types of `std::iterator_traits<Iter>` for a cursor type. -/
structure iterator_traits where
  /-- The capability tag the cursor type declares. -/
  iterator_category : iterator_tag
  /-- The element type. -/
  value_type : Ty
  /-- The difference type. -/
  difference_type : Ty
  /-- The reference type. -/
  reference : Ty
  /-- The pointer type. -/
  pointer : Ty
  deriving DecidableEq, Repr

/-- What the rest of the program declares about the types named in it. -/
structure Env where
  /-- The member typedefs declared by the class of that name. -/
  typedefs : String → List (String × Ty)
  /-- The members of `std::iterator_traits` for the cursor type of that name. -/
  traits : String → iterator_traits
  /-- Whether the first named type converts implicitly to the second,
  distinct, named type. -/
  convertible : String → String → Bool

/-- The trait `std::is_convertible<From, To>::value` on the types of the
model.  A tag converts to itself and to its base classes.  A named type
converts to itself and as the environment declares.  `normal_iterator`
declares no conversion function and all its constructors taking an argument
are `explicit`, so a specialisation converts only to itself (by copy) and
nothing else converts to it; named types are declared independently of the
header and so have no constructor that takes a `normal_iterator`. -/
def is_convertible (env : Env) : Ty → Ty → Bool
  | .tag a, .tag b => iterator_tag.derives_from iterator_tag.max_depth a b
  | .named a, .named b => a == b || env.convertible a b
  | .iterator_traits a, .iterator_traits b => a == b
  | .normal_iterator i c, .normal_iterator j d => i == j && c == d
  | _, _ => false

/-- The result of substituting template arguments into a template. -/
inductive Subst (α : Type)
  /-- The template resolves to this type. -/
  | resolved (t : α)
  /-- Substitution failure: the enclosing definition is not applicable. -/
  | substitution_failure
  /-- The instantiation is ill-formed: a hard compile-time error. -/
  | ill_formed
  deriving DecidableEq, Repr

/-- The alias `std::enable_if_t<B, T>`: `T` when `B` is true, no type
otherwise. -/
def enable_if_t {α : Type} (B : Bool) (T : α) : Subst α :=
  if B then .resolved T else .substitution_failure

/-- The public member typedefs of `normal_iterator<Iter, Container>`, in the
order of the class body, given the members of `std::iterator_traits<Iter>`. -/
def normal_iterator_typedefs (Iter : String) (traits : iterator_traits) : List (String × Ty) :=
  [ ("traits_type", .iterator_traits Iter),
    ("iterator_type", .named Iter),
    ("iterator_catagory", .tag .random_access_iterator_tag),
    ("value_type", traits.value_type),
    ("difference_type", traits.difference_type),
    ("reference", traits.reference),
    ("pointer", traits.pointer) ]

/-- The member typedefs a type declares. -/
def typedefs_of (env : Env) : Ty → List (String × Ty)
  | .named n => env.typedefs n
  | .normal_iterator Iter _ => normal_iterator_typedefs Iter (env.traits Iter)
  | .tag _ => []
  | .iterator_traits _ => []

/-- The qualified name `typename I::member`: the type the member typedef
names, `none` when `I` declares no such member. -/
def member_typedef (env : Env) (I : Ty) (member : String) : Option Ty :=
  (typedefs_of env I).lookup member

/-! ## Capability predicates and constraint aliases -/

/-- The base clause shared by the five predicates:
`std::is_convertible<typename Iter::iterator_category, X>`.  The result is
`none` when `Iter::iterator_category` does not name a type, in which case the
instantiation of the predicate is ill-formed. -/
def category_is_convertible (env : Env) (Iter : Ty) (X : iterator_tag) : Option Bool :=
  (member_typedef env Iter "iterator_category").map fun c => is_convertible env c (.tag X)

/-- The predicate `is_input_iterator<Iter>::value`. -/
def is_input_iterator (env : Env) (Iter : Ty) : Option Bool :=
  category_is_convertible env Iter .input_iterator_tag

/-- The predicate `is_output_iterator<Iter>::value`. -/
def is_output_iterator (env : Env) (Iter : Ty) : Option Bool :=
  category_is_convertible env Iter .output_iterator_tag

/-- The predicate `is_forward_iterator<Iter>::value`. -/
def is_forward_iterator (env : Env) (Iter : Ty) : Option Bool :=
  category_is_convertible env Iter .forward_iterator_tag

/-- The predicate `is_bidirectional_iterator<Iter>::value`. -/
def is_bidirectional_iterator (env : Env) (Iter : Ty) : Option Bool :=
  category_is_convertible env Iter .bidirectional_iterator_tag

/-- The predicate `is_random_access_iterator<Iter>::value`. -/
def is_random_access_iterator (env : Env) (Iter : Ty) : Option Bool :=
  category_is_convertible env Iter .random_access_iterator_tag

/-- The alias `std::enable_if_t<P<Iter>::value, Iter>` for a predicate value
`P<Iter>::value`; ill-formed when the predicate cannot be instantiated. -/
def require_of {α : Type} (value : Option Bool) (Iter : α) : Subst α :=
  match value with
  | some b => enable_if_t b Iter
  | none => .ill_formed

/-- The alias `require_input_iterator<Iter>`. -/
def require_input_iterator (env : Env) (Iter : Ty) : Subst Ty :=
  require_of (is_input_iterator env Iter) Iter

/-- The alias `require_output_iterator<Iter>`. -/
def require_output_iterator (env : Env) (Iter : Ty) : Subst Ty :=
  require_of (is_output_iterator env Iter) Iter

/-- The alias `require_forward_iterator<Iter>`. -/
def require_forward_iterator (env : Env) (Iter : Ty) : Subst Ty :=
  require_of (is_forward_iterator env Iter) Iter

/-- The alias `require_bidirectional_iterator<Iter>`. -/
def require_bidirectional_iterator (env : Env) (Iter : Ty) : Subst Ty :=
  require_of (is_bidirectional_iterator env Iter) Iter

/-- The alias `require_random_access_iterator<Iter>`. -/
def require_random_access_iterator (env : Env) (Iter : Ty) : Subst Ty :=
  require_of (is_random_access_iterator env Iter) Iter

/-- The predicate of the header for the capability level `X`. -/
def capability_predicate (X : iterator_tag) : Env → Ty → Option Bool :=
  match X with
  | .input_iterator_tag => is_input_iterator
  | .output_iterator_tag => is_output_iterator
  | .forward_iterator_tag => is_forward_iterator
  | .bidirectional_iterator_tag => is_bidirectional_iterator
  | .random_access_iterator_tag => is_random_access_iterator

/-- The constraint alias of the header for the capability level `X`. -/
def constraint_alias (X : iterator_tag) : Env → Ty → Subst Ty :=
  match X with
  | .input_iterator_tag => require_input_iterator
  | .output_iterator_tag => require_output_iterator
  | .forward_iterator_tag => require_forward_iterator
  | .bidirectional_iterator_tag => require_bidirectional_iterator
  | .random_access_iterator_tag => require_random_access_iterator

/-! ## Construction of an adapter from another adapter -/

/-- The alias `convertible_from<It>` of `normal_iterator<Iter, Container>`:
`std::enable_if_t<std::is_convertible<It, Iter>::value>`, which names `void`
when it resolves. -/
def convertible_from (env : Env) (Iter : String) (It : Ty) : Subst Unit :=
  enable_if_t (is_convertible env It (.named Iter)) ()

/-- How the compiler resolves the expression
`normal_iterator<Iter, Container>(i)`. -/
inductive Construction
  /-- The implicitly declared copy constructor is selected. -/
  | copy_constructor
  /-- The converting constructor is selected and its initialiser compiles. -/
  | converting_constructor
  /-- No constructor accepts the argument. -/
  | no_matching_constructor
  /-- The converting constructor is selected but `m_iter(i.base())` does not
  compile. -/
  | ill_formed_initialiser
  deriving DecidableEq, Repr

/-- Resolution of `normal_iterator<Iter, Container>(i)` for an argument `i`
of type `It = normal_iterator<U, Container2>`.  The copy constructor takes
`const normal_iterator<Iter, Container>&`.  The converting constructor
template deduces `It` as the type of the argument and takes part only when
`convertible_from<It>` resolves; its initialiser `m_iter(i.base())` converts
a `U` to `Iter`.  The constructor from `const Iter&` would need the same
conversion of `It` to `Iter` that the gate tests, so whenever it is viable
the converting constructor, an exact match, is preferred to it. -/
def construct_from_adapter (env : Env) (Iter Container U Container2 : String) : Construction :=
  if is_convertible env (.normal_iterator U Container2) (.normal_iterator Iter Container) then
    .copy_constructor
  else
    match convertible_from env Iter (.normal_iterator U Container2) with
    | .resolved _ =>
      if is_convertible env (.named U) (.named Iter) then .converting_constructor
      else .ill_formed_initialiser
    | _ => .no_matching_constructor

/-- Whether the construction compiles. -/
def Construction.accepted : Construction → Bool
  | .copy_constructor => true
  | .converting_constructor => true
  | .no_matching_constructor => false
  | .ill_formed_initialiser => false

/-! ## The order of capabilities in the words of the specification -/

/-- The position of a tag in the order
input ≤ forward ≤ bidirectional ≤ random-access; the output tag is outside
the order. -/
def iterator_tag.level : iterator_tag → Option Nat
  | .input_iterator_tag => some 0
  | .forward_iterator_tag => some 1
  | .bidirectional_iterator_tag => some 2
  | .random_access_iterator_tag => some 3
  | .output_iterator_tag => none

/-- Tag `t` is at least as capable as `X`: both are in the order and `X` is
not above `t`, or both are the output tag. -/
def at_least_as_capable (t X : iterator_tag) : Bool :=
  match t.level, X.level with
  | some i, some j => decide (j ≤ i)
  | none, none => true
  | _, _ => false

/-! ## Sample environments and cursors -/

/-- An environment with the two pointer types `int*` and `const int*`;
`int*` converts to `const int*`, not the other way round, and both are
random-access cursors. -/
def pointer_env : Env where
  typedefs _ := []
  traits n :=
    ⟨.random_access_iterator_tag, .named "int", .named "std::ptrdiff_t",
      .named (if n == "int*" then "int&" else "const int&"), .named n⟩
  convertible a b := a == "int*" && b == "const int*"

/-- An environment with one cursor class `fwd_cursor` that declares the
forward tag, both as its member typedef and in its iterator traits. -/
def forward_env : Env where
  typedefs n :=
    if n == "fwd_cursor" then [("iterator_category", .tag .forward_iterator_tag)] else []
  traits n :=
    ⟨.forward_iterator_tag, .named "int", .named "std::ptrdiff_t", .named "int&", .named n⟩
  convertible _ _ := false

/-- Whether position `p` points into the sequence `s` or one past its end. -/
def in_range {α : Type} (s : List α) (p : Int) : Bool :=
  decide (0 ≤ p ∧ p ≤ s.length)

/-- The native cursor of a contiguous sequence `s`: a pointer into `s`,
represented by its position.  Positions `0 .. s.length` are valid, the last
being one past the end; an operation that leaves this range, or reads at a
position without an element, has undefined behaviour. -/
def pointer_ops {α : Type} (s : List α) : CursorOps Int α where
  deref p := if in_range s p then s[p.toNat]? else none
  pre_inc p := if in_range s p && in_range s (p + 1) then some (p + 1) else none
  post_inc p := if in_range s p && in_range s (p + 1) then some (p, p + 1) else none
  pre_dec p := if in_range s p && in_range s (p - 1) then some (p - 1) else none
  post_dec p := if in_range s p && in_range s (p - 1) then some (p, p - 1) else none
  index p n := if in_range s p && in_range s (p + n) then s[(p + n).toNat]? else none
  add_assign p n := if in_range s p && in_range s (p + n) then some (p + n) else none
  plus p n := if in_range s p && in_range s (p + n) then some (p + n) else none
  sub_assign p n := if in_range s p && in_range s (p - n) then some (p - n) else none
  minus p n := if in_range s p && in_range s (p - n) then some (p - n) else none

/-- The comparisons of two pointers into the same sequence. -/
def pointer_compare : Comparable Int Int where
  eq x y := decide (x = y)
  ne x y := decide (x ≠ y)
  lt x y := decide (x < y)
  gt x y := decide (x > y)
  le x y := decide (x ≤ y)
  ge x y := decide (x ≥ y)

/-! ## Repeated application and the contracts of the cursor -/

/-- Apply `f` to `a` `n` times in sequence; undefined as soon as one
application is. -/
def apply_n {α : Type} (f : α → Option α) : Nat → α → Option α
  | 0, a => some a
  | n + 1, a => (f a).bind (apply_n f n)

/-- The state of `*this` after `++a`. -/
def after_pre_inc {Iter Ref Container : Type} (K : CursorOps Iter Ref)
    (a : normal_iterator Iter Container) : Option (normal_iterator Iter Container) :=
  (normal_iterator.operator_pre_inc K a).map Prod.snd

/-- The state of `*this` after `a++`. -/
def after_post_inc {Iter Ref Container : Type} (K : CursorOps Iter Ref)
    (a : normal_iterator Iter Container) : Option (normal_iterator Iter Container) :=
  (normal_iterator.operator_post_inc K a).map Prod.snd

/-- The contract of post-increment and post-decrement on the cursor type:
each returns the prior value and leaves the cursor where the corresponding
pre-operation leaves it. -/
structure PostContract {Iter Ref : Type} (K : CursorOps Iter Ref) : Prop where
  /-- The contract of `it++`. -/
  post_inc_eq : ∀ c, K.post_inc c = (K.pre_inc c).map fun d => (c, d)
  /-- The contract of `it--`. -/
  post_dec_eq : ∀ c, K.post_dec c = (K.pre_dec c).map fun d => (c, d)

/-- The contract of `it + n` on a random-access cursor type: when `it + n`
is defined for `n ≥ 0`, incrementing `it` `n` times is defined and reaches
the same cursor. -/
def PlusContract {Iter Ref : Type} (K : CursorOps Iter Ref) : Prop :=
  ∀ (c : Iter) (n : Nat) (d : Iter), K.plus c n = some d → apply_n K.pre_inc n c = some d

/-- The contract of `!=` on the cursor types: the negation of `==`. -/
def NeContract {Iter1 Iter2 : Type} (K : Comparable Iter1 Iter2) : Prop :=
  ∀ x y, K.ne x y = !K.eq x y

/-! ## Const members with their effect on the adapter, further contracts -/

/-- The member `operator+(n) const` seen as the other members are: the value
returned and `*this` afterwards.  The member is `const` and applies the
binary `m_iter + n` to a cursor it may not modify, so `*this` afterwards is
`*this` before. -/
def operator_plus_on {Iter Ref Container : Type} (K : CursorOps Iter Ref)
    (a : normal_iterator Iter Container) (n : Int) :
    Option (normal_iterator Iter Container × normal_iterator Iter Container) :=
  (normal_iterator.operator_plus K a n).map fun r => (r, a)

/-- The member `operator-(n) const` seen as the other members are: the value
returned and `*this` afterwards, which is `*this` before. -/
def operator_minus_on {Iter Ref Container : Type} (K : CursorOps Iter Ref)
    (a : normal_iterator Iter Container) (n : Int) :
    Option (normal_iterator Iter Container × normal_iterator Iter Container) :=
  (normal_iterator.operator_minus K a n).map fun r => (r, a)

/-- The contract of the compound assignments on the cursor type: `it += n`
leaves the cursor at `it + n`, and `it -= n` leaves it at `it - n`. -/
structure AssignContract {Iter Ref : Type} (K : CursorOps Iter Ref) : Prop where
  /-- The contract of `it += n`. -/
  add_assign_eq : ∀ c n, K.add_assign c n = K.plus c n
  /-- The contract of `it -= n`. -/
  sub_assign_eq : ∀ c n, K.sub_assign c n = K.minus c n

/-- The contract of integer-offset arithmetic on the cursor type. -/
structure OffsetContract {Iter Ref : Type} (K : CursorOps Iter Ref) : Prop where
  /-- Subtracting `n` undoes adding `n`. -/
  minus_plus : ∀ c n d, K.plus c n = some d → K.minus d n = some c
  /-- Subtracting `n` is adding `-n`. -/
  minus_eq_plus_neg : ∀ c n, K.minus c n = K.plus c (-n)
  /-- Decrementing undoes incrementing. -/
  dec_inc : ∀ c d, K.pre_inc c = some d → K.pre_dec d = some c

/-- The contract of the comparisons on a totally ordered cursor type: each
of the six operators decides the corresponding relation of the order. -/
structure OrderContract {Iter : Type} [LinearOrder Iter] (K : Comparable Iter Iter) : Prop where
  /-- The operator `==` decides equality. -/
  eq_iff : ∀ x y, K.eq x y = true ↔ x = y
  /-- The operator `!=` decides inequality. -/
  ne_iff : ∀ x y, K.ne x y = true ↔ x ≠ y
  /-- The operator `<` decides the strict order. -/
  lt_iff : ∀ x y, K.lt x y = true ↔ x < y
  /-- The operator `>` decides the converse strict order. -/
  gt_iff : ∀ x y, K.gt x y = true ↔ y < x
  /-- The operator `<=` decides the order. -/
  le_iff : ∀ x y, K.le x y = true ↔ x ≤ y
  /-- The operator `>=` decides the converse order. -/
  ge_iff : ∀ x y, K.ge x y = true ↔ y ≤ x

/-! ## Theorems -/


/-! ### Helper lemmas -/

/-- A tag without a base class converts only to itself, whatever the
fuel. -/
theorem derives_from_of_no_base (n : Nat) (a b : iterator_tag) (h : a.base_class = none) :
    iterator_tag.derives_from n a b = (a == b) := by
  cases n <;> simp [iterator_tag.derives_from, h]

/-- The fuel `max_depth` is enough: more fuel does not change the result. -/
theorem derives_from_fuel (n : Nat) (a b : iterator_tag) :
    iterator_tag.derives_from (n + iterator_tag.max_depth) a b =
      iterator_tag.derives_from iterator_tag.max_depth a b := by
  have hi := fun b => derives_from_of_no_base n .input_iterator_tag b rfl
  cases a <;> cases b <;>
    simp [iterator_tag.derives_from, iterator_tag.base_class, iterator_tag.max_depth, hi]

/-- On tags, the conversion of the library is the order of the
specification. -/
theorem derives_from_eq_at_least_as_capable (t X : iterator_tag) :
    iterator_tag.derives_from iterator_tag.max_depth t X = at_least_as_capable t X := by
  cases t <;> cases X <;> decide

/-- A predicate applied to a type that declares the tag `t` as its
`iterator_category`. -/
theorem category_is_convertible_of_declared (env : Env) (I : Ty) (t X : iterator_tag)
    (h : member_typedef env I "iterator_category" = some (.tag t)) :
    category_is_convertible env I X = some (at_least_as_capable t X) := by
  simp [category_is_convertible, h, is_convertible, derives_from_eq_at_least_as_capable]

/-- Unfolding of the predicate for level `X`. -/
theorem capability_predicate_eq (env : Env) (I : Ty) (X : iterator_tag) :
    capability_predicate X env I = category_is_convertible env I X := by
  cases X <;> rfl

/-- Unfolding of the constraint alias for level `X`. -/
theorem constraint_alias_eq (env : Env) (I : Ty) (X : iterator_tag) :
    constraint_alias X env I = require_of (capability_predicate X env I) I := by
  cases X <;> rfl

/-- No specialisation of `normal_iterator` declares a member named
`iterator_category`. -/
theorem normal_iterator_has_no_iterator_category (env : Env) (Iter Container : String) :
    member_typedef env (.normal_iterator Iter Container) "iterator_category" = none := by
  rfl

/-- A specialisation of `normal_iterator` does not convert to a named
type. -/
theorem adapter_not_convertible_to_named (env : Env) (U C Iter : String) :
    is_convertible env (.normal_iterator U C) (.named Iter) = false := by
  rfl

/-- The initialiser of the converting constructor: the new adapter wraps
the converted cursor of the argument. -/
theorem base_ctor_convert {Iter1 Iter2 Container : Type} (convert : Iter1 → Iter2)
    (i : normal_iterator Iter1 Container) :
    (normal_iterator.ctor_convert convert i).base = convert i.base :=
  rfl

/-- Two adapters are constructed from one another only when they are the
same specialisation: for distinct cursor types no constructor matches. -/
theorem construct_from_adapter_of_ne (env : Env) (Iter Container U Container2 : String)
    (h : (U == Iter) = false) :
    construct_from_adapter env Iter Container U Container2 = .no_matching_constructor := by
  simp [construct_from_adapter, convertible_from, enable_if_t, is_convertible, h]

/-- Repeated pre-increment of the adapter is repeated pre-increment of its
cursor. -/
theorem apply_n_after_pre_inc {Iter Ref Container : Type} (K : CursorOps Iter Ref) (n : Nat)
    (a : normal_iterator Iter Container) :
    apply_n (after_pre_inc K) n a =
      (apply_n K.pre_inc n a.m_iter).map normal_iterator.ctor_cursor := by
  induction n generalizing a with
  | zero => rfl
  | succ n ih =>
    simp only [apply_n, after_pre_inc, normal_iterator.operator_pre_inc]
    cases hc : K.pre_inc a.m_iter with
    | none => rfl
    | some c =>
      simp only [Option.map_some', Option.some_bind]
      exact ih _

/-- Under the post-increment contract, `a++` leaves `*this` as `++a`
does. -/
theorem after_post_inc_eq {Iter Ref Container : Type} (K : CursorOps Iter Ref)
    (h : PostContract K) (a : normal_iterator Iter Container) :
    after_post_inc K a = after_pre_inc K a := by
  simp only [after_post_inc, after_pre_inc, normal_iterator.operator_post_inc,
    normal_iterator.operator_pre_inc, h.post_inc_eq]
  cases K.pre_inc a.m_iter <;> rfl

/-- The sample pointer cursor meets the post-increment and post-decrement
contract. -/
theorem pointer_ops_post_contract {α : Type} (s : List α) : PostContract (pointer_ops s) := by
  constructor
  · intro c
    simp only [pointer_ops]
    split <;> rfl
  · intro c
    simp only [pointer_ops]
    split <;> rfl

/-- The sample pointer cursor meets the contract of `it + n`. -/
theorem pointer_ops_plus_contract {α : Type} (s : List α) : PlusContract (pointer_ops s) := by
  intro c n
  induction n generalizing c with
  | zero =>
    intro d h
    simp only [pointer_ops, in_range, Bool.and_eq_true, decide_eq_true_eq] at h
    split at h
    · simp only [Option.some.injEq] at h
      subst h
      simp [apply_n]
    · exact absurd h (by simp)
  | succ n ih =>
    intro d h
    simp only [pointer_ops, in_range, Bool.and_eq_true, decide_eq_true_eq] at h
    split at h
    · rename_i hr
      simp only [Option.some.injEq] at h
      subst h
      have h1 : (pointer_ops s).pre_inc c = some (c + 1) := by
        simp only [pointer_ops, in_range, Bool.and_eq_true, decide_eq_true_eq]
        rw [if_pos]
        push_cast at hr
        omega
      have h2 : (pointer_ops s).plus (c + 1) (n : Nat) = some (c + ((n + 1 : Nat) : Int)) := by
        simp only [pointer_ops, in_range, Bool.and_eq_true, decide_eq_true_eq]
        push_cast at hr ⊢
        rw [if_pos (by omega)]
        congr 1
        omega
      simp only [apply_n, h1, Option.some_bind]
      exact ih (c + 1) _ h2
    · exact absurd h (by simp)

/-- The sample pointer comparisons meet the contract of `!=`. -/
theorem pointer_compare_ne_contract : NeContract pointer_compare := by
  intro x y
  simp [pointer_compare]

/-- The sample pointer cursor meets the contract of the compound
assignments. -/
theorem pointer_ops_assign_contract {α : Type} (s : List α) : AssignContract (pointer_ops s) :=
  ⟨fun _ _ => rfl, fun _ _ => rfl⟩

/-- The sample pointer cursor meets the contract of integer-offset
arithmetic. -/
theorem pointer_ops_offset_contract {α : Type} (s : List α) : OffsetContract (pointer_ops s) := by
  constructor
  · intro c n d h
    simp only [pointer_ops, in_range, Bool.and_eq_true, decide_eq_true_eq] at h ⊢
    split at h
    · rename_i hr
      simp only [Option.some.injEq] at h
      subst h
      rw [if_pos (by omega)]
      congr 1
      omega
    · exact absurd h (by simp)
  · intro c n
    simp only [pointer_ops, sub_eq_add_neg]
  · intro c d h
    simp only [pointer_ops, in_range, Bool.and_eq_true, decide_eq_true_eq] at h ⊢
    split at h
    · rename_i hr
      simp only [Option.some.injEq] at h
      subst h
      rw [if_pos (by omega)]
      congr 1
      omega
    · exact absurd h (by simp)

/-- The sample pointer comparisons decide the order of the positions. -/
theorem pointer_compare_order_contract : OrderContract pointer_compare := by
  constructor <;> intro x y <;> simp [pointer_compare]

/-! ### The claims -/


/-- C1: for every cursor value `c`, the adapter constructed from `c` by
`normal_iterator(const Iter&)` has `base()` equal to `c`. -/
theorem C1_base_of_ctor_cursor {Iter Container : Type} (c : Iter) :
    (normal_iterator.ctor_cursor c : normal_iterator Iter Container).base = c :=
  rfl

/-- C2, evaluated on the code: `int*` converts to `const int*`, yet the gate
`convertible_from` of `normal_iterator<const int*, C>` does not resolve for
the argument type `normal_iterator<int*, C>`, and the construction of the
const adapter from the mutable adapter finds no matching constructor. -/
theorem C2_const_from_mutable_rejected :
    is_convertible pointer_env (.named "int*") (.named "const int*") = true ∧
    convertible_from pointer_env "const int*" (.normal_iterator "int*" "C") =
      .substitution_failure ∧
    construct_from_adapter pointer_env "const int*" "C" "int*" "C" =
      .no_matching_constructor ∧
    (construct_from_adapter pointer_env "const int*" "C" "int*" "C").accepted = false := by
  decide

/-- C3: when cursor type `T` does not convert to cursor type `U`, the gate
`convertible_from` of `normal_iterator<U, Container>` does not resolve for an
argument of type `normal_iterator<T, Container>`, so the construction is
rejected by the compiler: no constructor matches, whatever the value of the
argument. -/
theorem C3_reverse_construction_rejected (env : Env) (T U Container : String)
    (h : is_convertible env (.named T) (.named U) = false) :
    convertible_from env U (.normal_iterator T Container) = .substitution_failure ∧
    construct_from_adapter env U Container T Container = .no_matching_constructor ∧
    (construct_from_adapter env U Container T Container).accepted = false := by
  have hne : (T == U) = false := by
    simp only [is_convertible, Bool.or_eq_false_iff] at h
    exact h.1
  have hgate : convertible_from env U (.normal_iterator T Container) = .substitution_failure := by
    simp [convertible_from, adapter_not_convertible_to_named, enable_if_t]
  have hcons : construct_from_adapter env U Container T Container = .no_matching_constructor := by
    simp only [construct_from_adapter, hgate]
    simp [is_convertible, hne]
  exact ⟨hgate, hcons, by rw [hcons]; rfl⟩

/-- C3 at a concrete input: `const int*` does not convert to `int*`, and the
mutable adapter cannot be constructed from the const adapter. -/
theorem C3_reverse_construction_rejected_witness :
    is_convertible pointer_env (.named "const int*") (.named "int*") = false ∧
    (convertible_from pointer_env "int*" (.normal_iterator "const int*" "C") =
        .substitution_failure ∧
      construct_from_adapter pointer_env "int*" "C" "const int*" "C" =
        .no_matching_constructor ∧
      (construct_from_adapter pointer_env "int*" "C" "const int*" "C").accepted = false) :=
  ⟨by decide, C3_reverse_construction_rejected pointer_env "const int*" "int*" "C" (by decide)⟩

/-- C4 fails as stated: the cursor type `fwd_cursor` declares the forward
tag, and the adapter over it declares the random-access tag. -/
theorem C4_forward_cursor_counterexample :
    (forward_env.traits "fwd_cursor").iterator_category = .forward_iterator_tag ∧
    member_typedef forward_env (.normal_iterator "fwd_cursor" "C") "iterator_catagory" =
      some (.tag .random_access_iterator_tag) ∧
    member_typedef forward_env (.normal_iterator "fwd_cursor" "C") "iterator_catagory" ≠
      some (.tag (forward_env.traits "fwd_cursor").iterator_category) := by
  decide

/-- C4 as amended: for every cursor type, the category typedef the adapter
declares names the random-access tag, whatever tag the cursor type declares;
it names the tag of the cursor type exactly when that tag is
random-access. -/
theorem C4_adapter_declares_random_access (env : Env) (Iter Container : String) :
    member_typedef env (.normal_iterator Iter Container) "iterator_catagory" =
      some (.tag .random_access_iterator_tag) ∧
    (member_typedef env (.normal_iterator Iter Container) "iterator_catagory" =
        some (.tag (env.traits Iter).iterator_category) ↔
      (env.traits Iter).iterator_category = .random_access_iterator_tag) := by
  have h : member_typedef env (.normal_iterator Iter Container) "iterator_catagory" =
      some (.tag .random_access_iterator_tag) := by
    rfl
  refine ⟨h, ?_⟩
  rw [h]
  constructor
  · intro e
    simp only [Option.some.injEq, Ty.tag.injEq] at e
    exact e.symm
  · intro e
    rw [e]

/-- C5: for a type that declares the tag `t` as its `iterator_category`, the
predicate for level `X` is true exactly when `t` is at least as capable as
`X` in the order input ≤ forward ≤ bidirectional ≤ random-access, the
output tag being comparable only to itself; so `is_input_iterator` holds for
the input, forward, bidirectional and random-access tags,
`is_random_access_iterator` only for the random-access tag and
`is_output_iterator` only for the output tag. -/
theorem C5_predicate_iff_at_least_as_capable (env : Env) (I : Ty) (t : iterator_tag)
    (h : member_typedef env I "iterator_category" = some (.tag t)) :
    (∀ X, capability_predicate X env I = some (at_least_as_capable t X)) ∧
    (is_input_iterator env I = some true ↔
      t = .input_iterator_tag ∨ t = .forward_iterator_tag ∨
        t = .bidirectional_iterator_tag ∨ t = .random_access_iterator_tag) ∧
    (is_random_access_iterator env I = some true ↔ t = .random_access_iterator_tag) ∧
    (is_output_iterator env I = some true ↔ t = .output_iterator_tag) := by
  refine ⟨fun X => ?_, ?_, ?_, ?_⟩
  · rw [capability_predicate_eq]
    exact category_is_convertible_of_declared env I t X h
  · rw [is_input_iterator, category_is_convertible_of_declared env I t _ h]
    cases t <;> decide
  · rw [is_random_access_iterator, category_is_convertible_of_declared env I t _ h]
    cases t <;> decide
  · rw [is_output_iterator, category_is_convertible_of_declared env I t _ h]
    cases t <;> decide

/-- C5 at a concrete input: the class `fwd_cursor` declares the forward
tag. -/
theorem C5_predicate_iff_at_least_as_capable_witness :
    member_typedef forward_env (.named "fwd_cursor") "iterator_category" =
      some (.tag .forward_iterator_tag) ∧
    is_input_iterator forward_env (.named "fwd_cursor") = some true ∧
    is_forward_iterator forward_env (.named "fwd_cursor") = some true ∧
    is_bidirectional_iterator forward_env (.named "fwd_cursor") = some false ∧
    is_random_access_iterator forward_env (.named "fwd_cursor") = some false ∧
    is_output_iterator forward_env (.named "fwd_cursor") = some false :=
  have h := (C5_predicate_iff_at_least_as_capable forward_env (.named "fwd_cursor")
    .forward_iterator_tag (by decide)).1
  ⟨by decide, h .input_iterator_tag, h .forward_iterator_tag, h .bidirectional_iterator_tag,
    h .random_access_iterator_tag, h .output_iterator_tag⟩

/-- C6: for every type `I` and level `X`, the constraint alias for `X`
resolves to `I` itself when the predicate for `X` holds of `I`, is a
substitution failure when the predicate is false, and resolves to no type
unless the predicate holds; a type that declares the forward tag is rejected
by `require_random_access_iterator` and accepted, as itself, by
`require_forward_iterator`. -/
theorem C6_constraint_alias (env : Env) (I : Ty) (X : iterator_tag) :
    (capability_predicate X env I = some true → constraint_alias X env I = .resolved I) ∧
    (capability_predicate X env I = some false →
      constraint_alias X env I = .substitution_failure) ∧
    (capability_predicate X env I ≠ some true → ∀ J, constraint_alias X env I ≠ .resolved J) ∧
    (member_typedef env I "iterator_category" = some (.tag .forward_iterator_tag) →
      require_random_access_iterator env I = .substitution_failure ∧
        require_forward_iterator env I = .resolved I) := by
  refine ⟨fun h => ?_, fun h => ?_, fun h J => ?_, fun h => ⟨?_, ?_⟩⟩
  · rw [constraint_alias_eq, h]
    rfl
  · rw [constraint_alias_eq, h]
    rfl
  · rw [constraint_alias_eq]
    cases hp : capability_predicate X env I with
    | none => simp [require_of]
    | some b =>
      cases b with
      | false => simp [require_of, enable_if_t]
      | true => exact absurd hp h
  · rw [require_random_access_iterator, is_random_access_iterator,
      category_is_convertible_of_declared env I _ _ h]
    rfl
  · rw [require_forward_iterator, is_forward_iterator,
      category_is_convertible_of_declared env I _ _ h]
    rfl

/-- C6 at a concrete input: the class `fwd_cursor`, which declares the
forward tag, with the forward and the random-access constraint aliases. -/
theorem C6_constraint_alias_witness :
    capability_predicate .forward_iterator_tag forward_env (.named "fwd_cursor") = some true ∧
    constraint_alias .forward_iterator_tag forward_env (.named "fwd_cursor") =
      .resolved (.named "fwd_cursor") ∧
    require_random_access_iterator forward_env (.named "fwd_cursor") = .substitution_failure ∧
    require_forward_iterator forward_env (.named "fwd_cursor") =
      .resolved (.named "fwd_cursor") :=
  have h := C6_constraint_alias forward_env (.named "fwd_cursor") .forward_iterator_tag
  ⟨by decide, h.1 (by decide), (h.2.2.2 (by decide)).1, (h.2.2.2 (by decide)).2⟩

/-- C7, evaluated on the code: a specialisation of `normal_iterator`
declares its tag under the name `iterator_catagory` and declares no member
`iterator_category`, so every capability predicate applied to it is
ill-formed instead of yielding a boolean, and so is every constraint
alias. -/
theorem C7_predicates_ill_formed_on_adapter (env : Env) (Iter Container : String)
    (X : iterator_tag) :
    member_typedef env (.normal_iterator Iter Container) "iterator_catagory" =
      some (.tag .random_access_iterator_tag) ∧
    member_typedef env (.normal_iterator Iter Container) "iterator_category" = none ∧
    capability_predicate X env (.normal_iterator Iter Container) = none ∧
    constraint_alias X env (.normal_iterator Iter Container) = .ill_formed := by
  have hp : capability_predicate X env (.normal_iterator Iter Container) = none := by
    rw [capability_predicate_eq, category_is_convertible,
      normal_iterator_has_no_iterator_category]
    rfl
  refine ⟨rfl, normal_iterator_has_no_iterator_category env Iter Container, hp, ?_⟩
  rw [constraint_alias_eq, hp]
  rfl

/-- C8: for a cursor type that meets the contracts of post-increment and of
`it + n`, and every adapter `a` and `n ≥ 0` for which the cursor of `a`
advanced by `n` is defined and equal to `d`: `++a` applied `n` times and
`a++` applied `n` times both leave `a` equal to `a + n`, which is the adapter
constructed from `d`. -/
theorem C8_increment_n_eq_plus {Iter Ref Container : Type} (K : CursorOps Iter Ref)
    (hpost : PostContract K) (hplus : PlusContract K) (a : normal_iterator Iter Container)
    (n : Nat) (d : Iter) (h : K.plus a.m_iter n = some d) :
    apply_n (after_pre_inc K) n a = normal_iterator.operator_plus K a n ∧
    apply_n (after_post_inc K) n a = normal_iterator.operator_plus K a n ∧
    normal_iterator.operator_plus K a n = some (normal_iterator.ctor_cursor d) := by
  have hp : normal_iterator.operator_plus K a n =
      some (normal_iterator.ctor_cursor d : normal_iterator Iter Container) := by
    simp [normal_iterator.operator_plus, h]
  have hpre : apply_n (after_pre_inc K) n a = normal_iterator.operator_plus K a n := by
    rw [apply_n_after_pre_inc, hplus _ _ _ h, hp]
    rfl
  have hfun : (after_post_inc K : normal_iterator Iter Container → _) = after_pre_inc K :=
    funext fun x => after_post_inc_eq K hpost x
  exact ⟨hpre, by rw [hfun]; exact hpre, hp⟩

/-- C8 at a concrete input: a pointer at position 0 of `[10, 20, 30]`,
incremented twice. -/
theorem C8_increment_n_eq_plus_witness :
    (pointer_ops [10, 20, 30]).plus 0 (2 : Nat) = some 2 ∧
    apply_n (after_pre_inc (pointer_ops [10, 20, 30])) 2 (⟨0⟩ : normal_iterator Int Unit) =
      normal_iterator.operator_plus (pointer_ops [10, 20, 30]) ⟨0⟩ (2 : Nat) ∧
    apply_n (after_post_inc (pointer_ops [10, 20, 30])) 2 (⟨0⟩ : normal_iterator Int Unit) =
      normal_iterator.operator_plus (pointer_ops [10, 20, 30]) ⟨0⟩ (2 : Nat) ∧
    normal_iterator.operator_plus (pointer_ops [10, 20, 30]) (⟨0⟩ : normal_iterator Int Unit)
      (2 : Nat) = some (normal_iterator.ctor_cursor 2) :=
  ⟨by decide,
    C8_increment_n_eq_plus (pointer_ops [10, 20, 30]) (pointer_ops_post_contract _)
      (pointer_ops_plus_contract _) ⟨0⟩ 2 2 (by decide)⟩

/-- C9: for a cursor type that meets the contract of post-increment and
post-decrement, `a++` returns an adapter equal to `a` before the call and
leaves `a` wrapping the cursor advanced by one, as `++a` leaves it; and
`a--` returns the prior `a` and leaves `a` wrapping the cursor retreated by
one, as `--a` leaves it. -/
theorem C9_post_returns_prior_state {Iter Ref Container : Type} (K : CursorOps Iter Ref)
    (h : PostContract K) (a : normal_iterator Iter Container) :
    normal_iterator.operator_post_inc K a =
      (K.pre_inc a.m_iter).map (fun d => (a, normal_iterator.ctor_cursor d)) ∧
    normal_iterator.operator_post_inc K a =
      (normal_iterator.operator_pre_inc K a).map (fun r => (a, r.2)) ∧
    normal_iterator.operator_post_dec K a =
      (K.pre_dec a.m_iter).map (fun d => (a, normal_iterator.ctor_cursor d)) ∧
    normal_iterator.operator_post_dec K a =
      (normal_iterator.operator_pre_dec K a).map (fun r => (a, r.2)) := by
  refine ⟨?_, ?_, ?_, ?_⟩
  · simp only [normal_iterator.operator_post_inc, h.post_inc_eq]
    cases K.pre_inc a.m_iter <;> rfl
  · simp only [normal_iterator.operator_post_inc, normal_iterator.operator_pre_inc,
      h.post_inc_eq]
    cases K.pre_inc a.m_iter <;> rfl
  · simp only [normal_iterator.operator_post_dec, h.post_dec_eq]
    cases K.pre_dec a.m_iter <;> rfl
  · simp only [normal_iterator.operator_post_dec, normal_iterator.operator_pre_dec,
      h.post_dec_eq]
    cases K.pre_dec a.m_iter <;> rfl

/-- C9 at a concrete input: a pointer at position 1 of `[10, 20, 30]`. -/
theorem C9_post_returns_prior_state_witness :
    PostContract (pointer_ops [10, 20, 30]) ∧
    normal_iterator.operator_post_inc (pointer_ops [10, 20, 30])
        (⟨1⟩ : normal_iterator Int Unit) = some (⟨1⟩, ⟨2⟩) ∧
    normal_iterator.operator_post_dec (pointer_ops [10, 20, 30])
        (⟨1⟩ : normal_iterator Int Unit) = some (⟨1⟩, ⟨0⟩) :=
  have h := C9_post_returns_prior_state (pointer_ops [10, 20, 30])
    (pointer_ops_post_contract _) (⟨1⟩ : normal_iterator Int Unit)
  ⟨pointer_ops_post_contract _, h.1.trans rfl, h.2.2.1.trans rfl⟩

/-- C10: for cursor types whose `!=` is the negation of `==`, and every two
adapters `a` and `b` whose cursors compare equal, `a == b` is true and
`a != b` is false, in the same-type overloads and in the cross-type
overloads. -/
theorem C10_equal_cursors_compare_equal {Iter Iter1 Iter2 Container : Type}
    (K : Comparable Iter Iter) (hK : NeContract K)
    (K12 : Comparable Iter1 Iter2) (hK12 : NeContract K12) :
    (∀ a b : normal_iterator Iter Container, K.eq a.base b.base = true →
      operator_eq K a b = true ∧ operator_ne K a b = false) ∧
    (∀ (a : normal_iterator Iter1 Container) (b : normal_iterator Iter2 Container),
      K12.eq a.base b.base = true →
        operator_eq_cross K12 a b = true ∧ operator_ne_cross K12 a b = false) := by
  refine ⟨fun a b h => ⟨h, ?_⟩, fun a b h => ⟨h, ?_⟩⟩
  · simp [operator_ne, hK _ _, h]
  · simp [operator_ne_cross, hK12 _ _, h]

/-- C10 at a concrete input: two adapters that wrap the pointer at
position 1. -/
theorem C10_equal_cursors_compare_equal_witness :
    NeContract pointer_compare ∧
    pointer_compare.eq (⟨1⟩ : normal_iterator Int Unit).base
      (⟨1⟩ : normal_iterator Int Unit).base = true ∧
    operator_eq pointer_compare (⟨1⟩ : normal_iterator Int Unit) ⟨1⟩ = true ∧
    operator_ne pointer_compare (⟨1⟩ : normal_iterator Int Unit) ⟨1⟩ = false :=
  have h := (C10_equal_cursors_compare_equal pointer_compare
    pointer_compare_ne_contract pointer_compare pointer_compare_ne_contract).1
    (⟨1⟩ : normal_iterator Int Unit) ⟨1⟩ (by decide)
  ⟨pointer_compare_ne_contract, by decide, h.1, h.2⟩

/-- C11: each of `==`, `!=`, `<`, `>`, `<=`, `>=` on two adapters with the
same container tag, in the same-type overload and in the cross-type overload,
returns the result of the same comparison of `x.base()` and `y.base()`; so
for pointers into one sequence the adapter at position `i` is less than the
adapter at position `j` exactly when `i < j`, and position 0 is less than
position 2. -/
theorem C11_comparisons_delegate {Iter Iter1 Iter2 Container : Type}
    (K : Comparable Iter Iter) (K12 : Comparable Iter1 Iter2) :
    (∀ x y : normal_iterator Iter Container,
      operator_eq K x y = K.eq x.base y.base ∧ operator_ne K x y = K.ne x.base y.base ∧
      operator_lt K x y = K.lt x.base y.base ∧ operator_gt K x y = K.gt x.base y.base ∧
      operator_le K x y = K.le x.base y.base ∧ operator_ge K x y = K.ge x.base y.base) ∧
    (∀ (x : normal_iterator Iter1 Container) (y : normal_iterator Iter2 Container),
      operator_eq_cross K12 x y = K12.eq x.base y.base ∧
      operator_ne_cross K12 x y = K12.ne x.base y.base ∧
      operator_lt_cross K12 x y = K12.lt x.base y.base ∧
      operator_gt_cross K12 x y = K12.gt x.base y.base ∧
      operator_le_cross K12 x y = K12.le x.base y.base ∧
      operator_ge_cross K12 x y = K12.ge x.base y.base) ∧
    (∀ i j : Int,
      (operator_lt pointer_compare (⟨i⟩ : normal_iterator Int Container) ⟨j⟩ = true ↔ i < j) ∧
      (operator_lt_cross pointer_compare (⟨i⟩ : normal_iterator Int Container) ⟨j⟩ = true ↔
        i < j)) ∧
    operator_lt pointer_compare (⟨0⟩ : normal_iterator Int Container) ⟨2⟩ = true := by
  refine ⟨fun x y => ⟨rfl, rfl, rfl, rfl, rfl, rfl⟩, fun x y => ⟨rfl, rfl, rfl, rfl, rfl, rfl⟩,
    fun i j => ⟨?_, ?_⟩, rfl⟩
  · simp [operator_lt, pointer_compare, normal_iterator.base]
  · simp [operator_lt_cross, pointer_compare, normal_iterator.base]

/-- C12: for every sequence `s`, an adapter `a` wrapping the pointer at
position `i` of `s`, and an offset `n` such that `i + n` is the position of
an element, `*(a + n)` and `a[n]` are both defined and both are the element
of `s` at position `i + n`. -/
theorem C12_deref_plus_and_index {α Container : Type} (s : List α) (i n : Int)
    (hi : 0 ≤ i ∧ i ≤ s.length) (hn : 0 ≤ i + n ∧ i + n < s.length) :
    (normal_iterator.operator_plus (pointer_ops s) (⟨i⟩ : normal_iterator Int Container) n).bind
        (normal_iterator.operator_deref (pointer_ops s)) = s[(i + n).toNat]? ∧
    normal_iterator.operator_index (pointer_ops s) (⟨i⟩ : normal_iterator Int Container) n =
      s[(i + n).toNat]? ∧
    (s[(i + n).toNat]?).isSome = true := by
  have h1 : in_range s i = true := by
    simp only [in_range, decide_eq_true_eq]
    exact hi
  have h2 : in_range s (i + n) = true := by
    simp only [in_range, decide_eq_true_eq]
    omega
  refine ⟨?_, ?_, ?_⟩
  · simp [normal_iterator.operator_plus, normal_iterator.operator_deref,
      normal_iterator.ctor_cursor, pointer_ops, h1, h2]
  · simp [normal_iterator.operator_index, pointer_ops, h1, h2]
  · have hlt : (i + n).toNat < s.length := by omega
    simp [List.getElem?_eq_getElem hlt]

/-- C12 at the concrete input of the claim: for `[10, 20, 30]` and the
adapter at position 0, `*(a + 2)` is 30 and `a[1]` is 20. -/
theorem C12_deref_plus_and_index_witness :
    ((0 : Int) ≤ 0 ∧ (0 : Int) ≤ ([10, 20, 30] : List Nat).length) ∧
    ((0 : Int) ≤ 0 + 2 ∧ (0 : Int) + 2 < ([10, 20, 30] : List Nat).length) ∧
    (normal_iterator.operator_plus (pointer_ops [10, 20, 30])
        (⟨0⟩ : normal_iterator Int Unit) 2).bind
      (normal_iterator.operator_deref (pointer_ops [10, 20, 30])) = some 30 ∧
    normal_iterator.operator_index (pointer_ops [10, 20, 30])
      (⟨0⟩ : normal_iterator Int Unit) 1 = some 20 :=
  have h2 := C12_deref_plus_and_index ([10, 20, 30] : List Nat) 0 2 (by decide) (by decide)
  have h1 := C12_deref_plus_and_index ([10, 20, 30] : List Nat) 0 1 (by decide) (by decide)
  ⟨by decide, by decide, h2.1.trans (by decide), h1.2.1.trans (by decide)⟩

/-- C13: for a cursor type whose compound assignments leave the cursor at
`it + n` and `it - n`, every adapter `a` and offset `n`: `a + n` and `a - n`
return a new adapter that wraps the cursor of `a` offset by `n` and by `-n`,
and leave `a` as it was; `a += n` and `a -= n` leave `a` wrapping the cursor
offset by `n` and by `-n`, and return that updated adapter. -/
theorem C13_offset_frame {Iter Ref Container : Type} (K : CursorOps Iter Ref)
    (hK : AssignContract K) (a : normal_iterator Iter Container) (n : Int) :
    operator_plus_on K a n =
      (K.plus a.m_iter n).map (fun d => (normal_iterator.ctor_cursor d, a)) ∧
    operator_minus_on K a n =
      (K.minus a.m_iter n).map (fun d => (normal_iterator.ctor_cursor d, a)) ∧
    normal_iterator.operator_add_assign K a n =
      (K.plus a.m_iter n).map
        (fun d => (normal_iterator.ctor_cursor d, normal_iterator.ctor_cursor d)) ∧
    normal_iterator.operator_sub_assign K a n =
      (K.minus a.m_iter n).map
        (fun d => (normal_iterator.ctor_cursor d, normal_iterator.ctor_cursor d)) ∧
    (∀ r, normal_iterator.operator_add_assign K a n = some r → r.1 = r.2) ∧
    (∀ r, normal_iterator.operator_sub_assign K a n = some r → r.1 = r.2) := by
  refine ⟨?_, ?_, ?_, ?_, ?_, ?_⟩
  · simp only [operator_plus_on, normal_iterator.operator_plus]
    cases K.plus a.m_iter n <;> rfl
  · simp only [operator_minus_on, normal_iterator.operator_minus]
    cases K.minus a.m_iter n <;> rfl
  · simp only [normal_iterator.operator_add_assign, hK.add_assign_eq]
    rfl
  · simp only [normal_iterator.operator_sub_assign, hK.sub_assign_eq]
    rfl
  · intro r hr
    simp only [normal_iterator.operator_add_assign] at hr
    cases hc : K.add_assign a.m_iter n with
    | none => simp [hc] at hr
    | some c =>
      simp only [hc, Option.map_some', Option.some.injEq] at hr
      rw [← hr]
  · intro r hr
    simp only [normal_iterator.operator_sub_assign] at hr
    cases hc : K.sub_assign a.m_iter n with
    | none => simp [hc] at hr
    | some c =>
      simp only [hc, Option.map_some', Option.some.injEq] at hr
      rw [← hr]

/-- C13 at a concrete input: the adapter at position 1 of `[10, 20, 30]`
and the offset 1. -/
theorem C13_offset_frame_witness :
    AssignContract (pointer_ops [10, 20, 30]) ∧
    operator_plus_on (pointer_ops [10, 20, 30]) (⟨1⟩ : normal_iterator Int Unit) 1 =
      some (⟨2⟩, ⟨1⟩) ∧
    operator_minus_on (pointer_ops [10, 20, 30]) (⟨1⟩ : normal_iterator Int Unit) 1 =
      some (⟨0⟩, ⟨1⟩) ∧
    normal_iterator.operator_add_assign (pointer_ops [10, 20, 30])
      (⟨1⟩ : normal_iterator Int Unit) 1 = some (⟨2⟩, ⟨2⟩) ∧
    normal_iterator.operator_sub_assign (pointer_ops [10, 20, 30])
      (⟨1⟩ : normal_iterator Int Unit) 1 = some (⟨0⟩, ⟨0⟩) :=
  have h := C13_offset_frame (pointer_ops [10, 20, 30]) (pointer_ops_assign_contract _)
    (⟨1⟩ : normal_iterator Int Unit) 1
  ⟨pointer_ops_assign_contract _, h.1.trans rfl, h.2.1.trans rfl, h.2.2.1.trans rfl,
    h.2.2.2.1.trans rfl⟩

/-- C14: every adapter operation is undefined exactly when the same
operation on the wrapped cursor is undefined, and otherwise returns the
result of the cursor: the value of the cursor for dereference and indexed
access, the adapter wrapping the cursor result for increment, decrement and
offset; the comparisons are always defined and return the comparison of the
cursors. -/
theorem C14_no_failure_of_its_own {Iter Ref Container : Type} (K : CursorOps Iter Ref)
    (E : Comparable Iter Iter) (a b : normal_iterator Iter Container) (n : Int) :
    (normal_iterator.operator_deref K a = K.deref a.m_iter ∧
      normal_iterator.operator_index K a n = K.index a.m_iter n) ∧
    ((normal_iterator.operator_pre_inc K a = none ↔ K.pre_inc a.m_iter = none) ∧
      ∀ d, K.pre_inc a.m_iter = some d →
        normal_iterator.operator_pre_inc K a = some (⟨d⟩, ⟨d⟩)) ∧
    ((normal_iterator.operator_post_inc K a = none ↔ K.post_inc a.m_iter = none) ∧
      ∀ r, K.post_inc a.m_iter = some r →
        normal_iterator.operator_post_inc K a = some (⟨r.1⟩, ⟨r.2⟩)) ∧
    ((normal_iterator.operator_pre_dec K a = none ↔ K.pre_dec a.m_iter = none) ∧
      ∀ d, K.pre_dec a.m_iter = some d →
        normal_iterator.operator_pre_dec K a = some (⟨d⟩, ⟨d⟩)) ∧
    ((normal_iterator.operator_post_dec K a = none ↔ K.post_dec a.m_iter = none) ∧
      ∀ r, K.post_dec a.m_iter = some r →
        normal_iterator.operator_post_dec K a = some (⟨r.1⟩, ⟨r.2⟩)) ∧
    ((normal_iterator.operator_add_assign K a n = none ↔ K.add_assign a.m_iter n = none) ∧
      ∀ d, K.add_assign a.m_iter n = some d →
        normal_iterator.operator_add_assign K a n = some (⟨d⟩, ⟨d⟩)) ∧
    ((normal_iterator.operator_plus K a n = none ↔ K.plus a.m_iter n = none) ∧
      ∀ d, K.plus a.m_iter n = some d → normal_iterator.operator_plus K a n = some ⟨d⟩) ∧
    ((normal_iterator.operator_sub_assign K a n = none ↔ K.sub_assign a.m_iter n = none) ∧
      ∀ d, K.sub_assign a.m_iter n = some d →
        normal_iterator.operator_sub_assign K a n = some (⟨d⟩, ⟨d⟩)) ∧
    ((normal_iterator.operator_minus K a n = none ↔ K.minus a.m_iter n = none) ∧
      ∀ d, K.minus a.m_iter n = some d → normal_iterator.operator_minus K a n = some ⟨d⟩) ∧
    (operator_eq E a b = E.eq a.m_iter b.m_iter ∧ operator_ne E a b = E.ne a.m_iter b.m_iter ∧
      operator_lt E a b = E.lt a.m_iter b.m_iter ∧ operator_gt E a b = E.gt a.m_iter b.m_iter ∧
      operator_le E a b = E.le a.m_iter b.m_iter ∧
      operator_ge E a b = E.ge a.m_iter b.m_iter) := by
  refine ⟨⟨rfl, rfl⟩, ⟨?_, ?_⟩, ⟨?_, ?_⟩, ⟨?_, ?_⟩, ⟨?_, ?_⟩, ⟨?_, ?_⟩, ⟨?_, ?_⟩, ⟨?_, ?_⟩,
    ⟨?_, ?_⟩, ⟨rfl, rfl, rfl, rfl, rfl, rfl⟩⟩
  · simp [normal_iterator.operator_pre_inc]
  · intro d hd
    simp [normal_iterator.operator_pre_inc, hd]
  · simp [normal_iterator.operator_post_inc]
  · intro r hr
    simp [normal_iterator.operator_post_inc, hr, normal_iterator.ctor_cursor]
  · simp [normal_iterator.operator_pre_dec]
  · intro d hd
    simp [normal_iterator.operator_pre_dec, hd]
  · simp [normal_iterator.operator_post_dec]
  · intro r hr
    simp [normal_iterator.operator_post_dec, hr, normal_iterator.ctor_cursor]
  · simp [normal_iterator.operator_add_assign]
  · intro d hd
    simp [normal_iterator.operator_add_assign, hd]
  · simp [normal_iterator.operator_plus]
  · intro d hd
    simp [normal_iterator.operator_plus, hd, normal_iterator.ctor_cursor]
  · simp [normal_iterator.operator_sub_assign]
  · intro d hd
    simp [normal_iterator.operator_sub_assign, hd]
  · simp [normal_iterator.operator_minus]
  · intro d hd
    simp [normal_iterator.operator_minus, hd, normal_iterator.ctor_cursor]

/-- C15: for a cursor type with integer-offset arithmetic and every adapter
`a` and offset `n`: when the cursor of `a` offset by `n` is defined, `a + n`
is defined and subtracting `n` from it gives `a` back; `a - n` is
`a + (-n)`; and when the cursor of `a` can be incremented, `++a` is defined
and `--a` applied afterwards is defined, returns an adapter equal to the
original `a` and leaves `a` equal to it. -/
theorem C15_offset_invertible {Iter Ref Container : Type} (K : CursorOps Iter Ref)
    (hK : OffsetContract K) (a : normal_iterator Iter Container) (n : Int) :
    (∀ d, K.plus a.m_iter n = some d →
      normal_iterator.operator_plus K a n = some (normal_iterator.ctor_cursor d) ∧
      normal_iterator.operator_minus K (normal_iterator.ctor_cursor d) n = some a ∧
      (normal_iterator.operator_plus K a n).bind
        (fun b => normal_iterator.operator_minus K b n) = some a) ∧
    normal_iterator.operator_minus K a n = normal_iterator.operator_plus K a (-n) ∧
    (∀ d, K.pre_inc a.m_iter = some d →
      normal_iterator.operator_pre_inc K a =
        some (normal_iterator.ctor_cursor d, normal_iterator.ctor_cursor d) ∧
      normal_iterator.operator_pre_dec K (normal_iterator.ctor_cursor d) = some (a, a) ∧
      (normal_iterator.operator_pre_inc K a).bind
        (fun r => normal_iterator.operator_pre_dec K r.2) = some (a, a)) := by
  refine ⟨?_, ?_, ?_⟩
  · intro d hd
    have h1 : normal_iterator.operator_plus K a n = some (normal_iterator.ctor_cursor d) := by
      simp [normal_iterator.operator_plus, hd]
    have h2 : normal_iterator.operator_minus K
        (normal_iterator.ctor_cursor d : normal_iterator Iter Container) n = some a := by
      simp [normal_iterator.operator_minus, normal_iterator.ctor_cursor,
        hK.minus_plus _ _ _ hd]
    exact ⟨h1, h2, by rw [h1]; exact h2⟩
  · simp only [normal_iterator.operator_minus, normal_iterator.operator_plus,
      hK.minus_eq_plus_neg]
  · intro d hd
    have h1 : normal_iterator.operator_pre_inc K a =
        some (normal_iterator.ctor_cursor d, normal_iterator.ctor_cursor d) := by
      simp [normal_iterator.operator_pre_inc, hd, normal_iterator.ctor_cursor]
    have h2 : normal_iterator.operator_pre_dec K
        (normal_iterator.ctor_cursor d : normal_iterator Iter Container) = some (a, a) := by
      simp [normal_iterator.operator_pre_dec, normal_iterator.ctor_cursor, hK.dec_inc _ _ hd]
    exact ⟨h1, h2, by rw [h1]; exact h2⟩

/-- C15 at a concrete input: the adapter at position 1 of `[10, 20, 30]`
and the offset 2; `a + 2` is the adapter at position 3 and `++a` returns the
adapter at position 2. -/
theorem C15_offset_invertible_witness :
    OffsetContract (pointer_ops [10, 20, 30]) ∧
    (pointer_ops [10, 20, 30]).plus 1 2 = some 3 ∧
    (pointer_ops [10, 20, 30]).pre_inc 1 = some 2 ∧
    normal_iterator.operator_plus (pointer_ops [10, 20, 30])
      (⟨1⟩ : normal_iterator Int Unit) 2 = some ⟨3⟩ ∧
    (normal_iterator.operator_plus (pointer_ops [10, 20, 30])
        (⟨1⟩ : normal_iterator Int Unit) 2).bind
      (fun b => normal_iterator.operator_minus (pointer_ops [10, 20, 30]) b 2) = some ⟨1⟩ ∧
    normal_iterator.operator_minus (pointer_ops [10, 20, 30])
        (⟨1⟩ : normal_iterator Int Unit) 1 =
      normal_iterator.operator_plus (pointer_ops [10, 20, 30]) ⟨1⟩ (-1) ∧
    normal_iterator.operator_pre_inc (pointer_ops [10, 20, 30])
      (⟨1⟩ : normal_iterator Int Unit) = some (⟨2⟩, ⟨2⟩) ∧
    (normal_iterator.operator_pre_inc (pointer_ops [10, 20, 30])
        (⟨1⟩ : normal_iterator Int Unit)).bind
      (fun r => normal_iterator.operator_pre_dec (pointer_ops [10, 20, 30]) r.2) =
      some (⟨1⟩, ⟨1⟩) :=
  have h := C15_offset_invertible (pointer_ops [10, 20, 30]) (pointer_ops_offset_contract _)
    (⟨1⟩ : normal_iterator Int Unit) 2
  have h1 := C15_offset_invertible (pointer_ops [10, 20, 30]) (pointer_ops_offset_contract _)
    (⟨1⟩ : normal_iterator Int Unit) 1
  have hp := h.1 3 (by decide)
  have hi := h.2.2 2 (by decide)
  ⟨pointer_ops_offset_contract _, by decide, by decide, hp.1, hp.2.2, h1.2.1, hi.1, hi.2.2⟩

/-- C16: for a totally ordered cursor type whose six operators decide the
order, and every two adapters `x` and `y`: exactly one of `x < y`, `x == y`,
`x > y` holds; `x != y` is the negation of `x == y`, `x <= y` of `x > y` and
`x >= y` of `x < y`; and each cross-type overload returns what the same-type
overload returns on the same pair. -/
theorem C16_comparisons_consistent {Iter Container : Type} [LinearOrder Iter]
    (K : Comparable Iter Iter) (hK : OrderContract K) (x y : normal_iterator Iter Container) :
    ((operator_lt K x y = true ∧ operator_eq K x y = false ∧ operator_gt K x y = false) ∨
      (operator_lt K x y = false ∧ operator_eq K x y = true ∧ operator_gt K x y = false) ∨
      (operator_lt K x y = false ∧ operator_eq K x y = false ∧ operator_gt K x y = true)) ∧
    operator_ne K x y = (!operator_eq K x y) ∧
    operator_le K x y = (!operator_gt K x y) ∧
    operator_ge K x y = (!operator_lt K x y) ∧
    (operator_eq_cross K x y = operator_eq K x y ∧
      operator_ne_cross K x y = operator_ne K x y ∧
      operator_lt_cross K x y = operator_lt K x y ∧
      operator_gt_cross K x y = operator_gt K x y ∧
      operator_le_cross K x y = operator_le K x y ∧
      operator_ge_cross K x y = operator_ge K x y) := by
  have heq := hK.eq_iff x.base y.base
  have hne := hK.ne_iff x.base y.base
  have hlt := hK.lt_iff x.base y.base
  have hgt := hK.gt_iff x.base y.base
  have hle := hK.le_iff x.base y.base
  have hge := hK.ge_iff x.base y.base
  simp only [operator_eq, operator_ne, operator_lt, operator_gt, operator_le, operator_ge,
    operator_eq_cross, operator_ne_cross, operator_lt_cross, operator_gt_cross,
    operator_le_cross, operator_ge_cross, and_self, and_true]
  refine ⟨?_, ?_, ?_, ?_⟩
  · rcases lt_trichotomy x.base y.base with h | h | h
    · left
      refine ⟨hlt.2 h, ?_, ?_⟩
      · rw [Bool.eq_false_iff]
        exact fun e => absurd (heq.1 e) (ne_of_lt h)
      · rw [Bool.eq_false_iff]
        exact fun e => absurd (hgt.1 e) (lt_asymm h)
    · right
      left
      refine ⟨?_, heq.2 h, ?_⟩
      · rw [Bool.eq_false_iff]
        exact fun e => absurd h (ne_of_lt (hlt.1 e))
      · rw [Bool.eq_false_iff]
        exact fun e => absurd h.symm (ne_of_lt (hgt.1 e))
    · right
      right
      refine ⟨?_, ?_, hgt.2 h⟩
      · rw [Bool.eq_false_iff]
        exact fun e => absurd (hlt.1 e) (lt_asymm h)
      · rw [Bool.eq_false_iff]
        exact fun e => absurd (heq.1 e).symm (ne_of_lt h)
  · rw [Bool.eq_iff_iff, hne, Bool.not_eq_true', ← Bool.not_eq_true, heq]
  · rw [Bool.eq_iff_iff, hle, Bool.not_eq_true', ← Bool.not_eq_true, hgt, not_lt]
  · rw [Bool.eq_iff_iff, hge, Bool.not_eq_true', ← Bool.not_eq_true, hlt, not_lt]

/-- C16 at a concrete input: the adapters at positions 0 and 2 of one
sequence. -/
theorem C16_comparisons_consistent_witness :
    OrderContract pointer_compare ∧
    operator_lt pointer_compare (⟨0⟩ : normal_iterator Int Unit) ⟨2⟩ = true ∧
    operator_eq pointer_compare (⟨0⟩ : normal_iterator Int Unit) ⟨2⟩ = false ∧
    operator_gt pointer_compare (⟨0⟩ : normal_iterator Int Unit) ⟨2⟩ = false ∧
    operator_ne pointer_compare (⟨0⟩ : normal_iterator Int Unit) ⟨2⟩ =
      (!operator_eq pointer_compare (⟨0⟩ : normal_iterator Int Unit) ⟨2⟩) ∧
    operator_le pointer_compare (⟨0⟩ : normal_iterator Int Unit) ⟨2⟩ =
      (!operator_gt pointer_compare (⟨0⟩ : normal_iterator Int Unit) ⟨2⟩) ∧
    operator_ge pointer_compare (⟨0⟩ : normal_iterator Int Unit) ⟨2⟩ =
      (!operator_lt pointer_compare (⟨0⟩ : normal_iterator Int Unit) ⟨2⟩) :=
  have h := C16_comparisons_consistent pointer_compare pointer_compare_order_contract
    (⟨0⟩ : normal_iterator Int Unit) ⟨2⟩
  ⟨pointer_compare_order_contract, by decide, by decide, by decide, h.2.1, h.2.2.1, h.2.2.2.1⟩

end da
